import Mathlib

/-!
Shallow embedding of the lead-to-professional-pair assignment subsystem of
the pro-town backend (`src/routers/lead.py`, `src/models/*.py`).

The database is modelled as lists of rows, one list per table.  The two
operations under verification are `choose_pair_for_service_city` (the
assignment engine) and `create_lead` (the lead-creation request handler).
Both are translated statement by statement from the Python source:

* `db.query(T).filter(...).first()`  becomes `List.find?`,
* `db.query(T).filter(...).order_by(T.id.asc()).all()` becomes
  `List.insertionSort` by ascending `id` of the filtered list,
* `db.query(func.count(Lead.id)).filter(Lead.pair_id.in_([a, b]))`
  becomes the length of the filtered lead list,
* `raise HTTPException(status, detail)` becomes `Except.error ⟨status, detail⟩`,
* the Postgres advisory lock is a transaction-scoped no-op on the data
  (the Python code ignores its value and swallows its failure), modelled
  by the unused `use_advisory_lock` / `lock_available` flags,
* a successful handler returns the new database (old one plus the single
  appended Lead row) together with the created row; an error returns no
  new database, matching a rolled-back transaction that wrote nothing.
-/

namespace ProTown

/-- Row of `services` (src/models/service.py). -/
structure Service where
  id : Nat
  service_name : String
deriving DecidableEq, Repr

/-- Row of `city` (src/models/city.py). -/
structure City where
  id : Nat
  city_name : String
deriving DecidableEq, Repr

/-- Row of `states` (src/models/state.py). -/
structure State where
  id : Nat
  state_name : String
deriving DecidableEq, Repr

/-- Row of `state_city_pairs` (src/models/state_city.py): city belongs to state. -/
structure StateCityPair where
  id : Nat
  state_id : Nat
  city_id : Nat
deriving DecidableEq, Repr

/-- Row of `service_city_pairs` (src/models/service_city_pair.py). -/
structure ServiceCityPair where
  id : Nat
  service_id : Nat
  city_id : Nat
deriving DecidableEq, Repr

/-- Row of `professional_pairs` (src/models/professional_pair.py). -/
structure ProfessionalPair where
  id : Nat
  service_city_pair_id : Nat
  professional_id_1 : Option Nat
  professional_id_2 : Option Nat
deriving DecidableEq, Repr

/-- Row of `customers` (src/models/customer.py); only the fields the
lead-creation path reads. -/
structure Customer where
  id : Nat
  email : String
deriving DecidableEq, Repr

/-- Row of `leads` (src/models/lead.py). -/
structure Lead where
  id : Nat
  customer_id : Nat
  description : String
  service_id : Nat
  state_id : Nat
  city_id : Nat
  status : String
  pair_id : Option Nat
  created_at : Nat
deriving DecidableEq, Repr

/-- The committed database state: one list per table, plus the server
clock used for `created_at`. -/
structure DB where
  services : List Service
  cities : List City
  states : List State
  state_city_pairs : List StateCityPair
  service_city_pairs : List ServiceCityPair
  professional_pairs : List ProfessionalPair
  customers : List Customer
  leads : List Lead
  now : Nat
deriving DecidableEq, Repr

/-- The JSON request body of `POST /leads` (`data: Dict[str, Any]`); the
fields the handler reads.  `Option` models an absent key, and
`some 0` together with `none` are the Python-falsy values rejected by
`if not svc_id or not city_id`. -/
structure LeadReq where
  customer_id : Option Nat
  service_id : Option Nat
  city_id : Option Nat
  state_id : Option Nat
  description : String
  status : Option String
  pair_id : Option Nat
deriving DecidableEq, Repr

/-- `raise HTTPException(status_code, detail)`. -/
structure HErr where
  status_code : Nat
  detail : String
deriving DecidableEq, Repr

/-- Ordering used by `.order_by(ProfessionalPair.id.asc())`. -/
def ppLE (a b : ProfessionalPair) : Prop := a.id ≤ b.id

instance : DecidableRel ppLE := fun a b => Nat.decLe a.id b.id

instance : IsTotal ProfessionalPair ppLE := ⟨fun a b => Nat.le_total a.id b.id⟩

instance : IsTrans ProfessionalPair ppLE := ⟨fun _ _ _ => Nat.le_trans⟩

/-- The ProfessionalPair rows bound to a ServiceCityPair, in ascending-id
order: `db.query(ProfessionalPair).filter(service_city_pair_id == scp.id)
.order_by(ProfessionalPair.id.asc()).all()`. -/
def boundPairs (db : DB) (scpId : Nat) : List ProfessionalPair :=
  List.insertionSort ppLE
    (db.professional_pairs.filter (fun p => p.service_city_pair_id == scpId))

/-- `db.query(ServiceCityPair).filter(service_id == ..., city_id == ...).first()`. -/
def findSCP (db : DB) (service_id city_id : Nat) : Option ServiceCityPair :=
  db.service_city_pairs.find?
    (fun s => s.service_id == service_id && s.city_id == city_id)

/-- `db.query(func.count(Lead.id)).filter(Lead.pair_id.in_([a, b])).scalar()`:
the single count of Lead rows referencing either pair id. -/
def countAB (db : DB) (a b : Nat) : Nat :=
  (db.leads.filter (fun l => l.pair_id == some a || l.pair_id == some b)).length

/-- `choose_pair_for_service_city` (src/routers/lead.py, lines 482-526).
`use_advisory_lock` is the keyword argument; `lock_available` models
whether `pg_advisory_xact_lock` succeeds (the `except Exception: pass`
swallows a failure).  The lock has no effect on the data read, so both
flags are bound and discarded exactly as in the source. -/
def choose_pair_for_service_city (db : DB) (service_id city_id : Nat)
    (use_advisory_lock : Bool := true) (lock_available : Bool := true) :
    Except HErr Nat :=
  match findSCP db service_id city_id with
  | none => .error ⟨400, "No service_city_pair for given service/city"⟩
  | some scp =>
    match boundPairs db scp.id with
    | pair_a :: pair_b :: _ =>
      let _lock_held : Bool := use_advisory_lock && lock_available
      let total_assigned := countAB db pair_a.id pair_b.id
      if total_assigned % 2 == 0 then .ok pair_a.id else .ok pair_b.id
    | _ => .error ⟨400, "Admin must configure two pairs for this service/city"⟩

/-- Python truthiness of an optional integer field: `not x` holds for an
absent key and for `0`. -/
def optFalsy (x : Option Nat) : Bool := x.getD 0 == 0

/-- The `state_id` resolution block of `create_lead`: if the request gave
no (truthy) `state_id`, derive it from the first `StateCityPair` of the
city, and fail when the city is in no state; otherwise keep the given
value.  (Inlined in the Python source; factored out here verbatim.) -/
def resolveStateId (db : DB) (city_id : Nat) (given : Option Nat) :
    Except HErr Nat :=
  if optFalsy given then
    match db.state_city_pairs.find? (fun p => p.city_id == city_id) with
    | some scp => .ok scp.state_id
    | none => .error ⟨400, "state_id is required. City is not associated with any state. Please provide state_id in the request."⟩
  else .ok (given.getD 0)

/-- The Lead row built by `Lead(**data)` after the handler has overwritten
`customer_id` (from the token), `state_id` (resolved) and `pair_id`
(engine choice); `id` and `created_at` are server-assigned. -/
def mkLead (db : DB) (me : Customer) (data : LeadReq)
    (state_id pid : Nat) : Lead :=
  { id := db.leads.length + 1
    customer_id := me.id
    description := data.description
    service_id := data.service_id.getD 0
    state_id := state_id
    city_id := data.city_id.getD 0
    status := data.status.getD "normal"
    pair_id := some pid
    created_at := db.now }

/-- `create_lead` (src/routers/lead.py, lines 301-369 up to the commit):
`sub` is the JWT subject (the authenticated email).  On success it returns
the database with the one committed Lead row appended, and the row itself;
every `raise HTTPException` path returns an error and writes nothing. -/
def create_lead (db : DB) (sub : String) (data : LeadReq) :
    Except HErr (DB × Lead) :=
  match db.customers.find? (fun c => c.email == sub) with
  | none => .error ⟨403, "Customer not found for this token"⟩
  | some me =>
    if optFalsy data.service_id || optFalsy data.city_id then
      .error ⟨400, "service_id and city_id are required"⟩
    else
      if !(db.services.any (fun s => s.id == data.service_id.getD 0)) then
        .error ⟨400, "Invalid service_id"⟩
      else
        match db.cities.find? (fun c => c.id == data.city_id.getD 0) with
        | none => .error ⟨400, "Invalid city_id"⟩
        | some _city =>
          match resolveStateId db (data.city_id.getD 0) data.state_id with
          | .error e => .error e
          | .ok state_id =>
            if !(db.states.any (fun s => s.id == state_id)) then
              .error ⟨400, "Invalid state_id"⟩
            else
              match choose_pair_for_service_city db (data.service_id.getD 0)
                  (data.city_id.getD 0) with
              | .error e => .error e
              | .ok assigned_pair_id =>
                .ok ({ db with leads :=
                        db.leads ++ [mkLead db me data state_id assigned_pair_id] },
                     mkLead db me data state_id assigned_pair_id)

/-- A sequence of sequential lead creations: each step feeds the committed
database of the previous one into the next `create_lead` call.  Returns
the final database and the `pair_id` of each created Lead, or `none` as
soon as one creation fails. -/
def runCreates (db : DB) : List (String × LeadReq) → Option (DB × List (Option Nat))
  | [] => some (db, [])
  | r :: rest =>
    match create_lead db r.1 r.2 with
    | .ok (db', lead) =>
      match runCreates db' rest with
      | some (dbf, ids) => some (dbf, lead.pair_id :: ids)
      | none => none
    | .error _ => none

/-- Whether a city belongs to a state according to the `state_city_pairs`
association table. -/
def cityInState (db : DB) (state_id city_id : Nat) : Bool :=
  db.state_city_pairs.any (fun p => p.state_id == state_id && p.city_id == city_id)

/-- The ProfessionalPair rows bound to a ServiceCityPair before sorting:
the filtered table. -/
def ppFor (db : DB) (scpId : Nat) : List ProfessionalPair :=
  db.professional_pairs.filter (fun p => p.service_city_pair_id == scpId)

/-- Primary-key invariant of the `professional_pairs` table: ids are
pairwise distinct (enforced by the relational schema, assumed here). -/
def PPIdsNodup (db : DB) : Prop :=
  (db.professional_pairs.map (fun p => p.id)).Nodup

instance (db : DB) : Decidable (PPIdsNodup db) := by
  unfold PPIdsNodup; infer_instance

/-! ### Concrete sample data, used to instantiate the theorems

One service offered in one city of one state, a second state the city does
not belong to, a ServiceCityPair (id 7) with two bound ProfessionalPair
rows stored out of id order (ids 101 and 100), one customer, no leads. -/

def wdb : DB :=
  { services := [⟨1, "plumbing"⟩]
    cities := [⟨1, "springfield"⟩]
    states := [⟨1, "illinois"⟩, ⟨2, "texas"⟩]
    state_city_pairs := [⟨1, 1, 1⟩]
    service_city_pairs := [⟨7, 1, 1⟩]
    professional_pairs := [⟨101, 7, some 3, some 4⟩, ⟨100, 7, some 1, some 2⟩]
    customers := [⟨5, "cust"⟩]
    leads := []
    now := 0 }

/-- A well-formed request body (the body-supplied `customer_id` of 99 does
not match the token's customer and must be overridden). -/
def wreq : LeadReq :=
  { customer_id := some 99, service_id := some 1, city_id := some 1,
    state_id := none, description := "fix sink", status := none, pair_id := none }

/-- Three sequential creation requests for the same service/city. -/
def wreqs : List (String × LeadReq) := [("cust", wreq), ("cust", wreq), ("cust", wreq)]

/-- The Lead row the first successful creation commits. -/
def wlead : Lead :=
  { id := 1, customer_id := 5, description := "fix sink", service_id := 1,
    state_id := 1, city_id := 1, status := "normal", pair_id := some 100,
    created_at := 0 }

/-- The database after the first successful creation. -/
def wdb' : DB := { wdb with leads := [wlead] }

/-- Final database of the three-creation run. -/
def wdbf : DB := ((runCreates wdb wreqs).getD (wdb, [])).1

/-- Assigned pair ids of the three-creation run. -/
def wids : List (Option Nat) := ((runCreates wdb wreqs).getD (wdb, [])).2

/-- `wdb` with only one ProfessionalPair row bound to ServiceCityPair 7. -/
def vdb : DB := { wdb with professional_pairs := [⟨100, 7, some 1, some 2⟩] }

/-- A database agreeing with `wdb` on the Pair registry and the Lead
ledger but differing everywhere else. -/
def udb : DB := { wdb with services := [], cities := [], customers := [], now := 42 }

/-- `wreq` with a claimed `state_id` (state 2) the city does not belong to. -/
def xreq : LeadReq := { wreq with state_id := some 2 }

/-! ### Helper lemmas about the sort used by the engine -/

lemma boundPairs_perm (db : DB) (scpId : Nat) :
    (boundPairs db scpId).Perm (ppFor db scpId) :=
  List.perm_insertionSort _ _

lemma boundPairs_sorted (db : DB) (scpId : Nat) :
    List.Sorted ppLE (boundPairs db scpId) :=
  List.sorted_insertionSort _ _

/-- A sorted permutation of a duplicate-free list whose strictly smallest
element is `A` and strictly second-smallest is `B` begins `A :: B`. -/
lemma sorted_perm_head_two {s l : List ProfessionalPair} {A B : ProfessionalPair}
    (hs : List.Sorted ppLE s) (hp : s.Perm l) (hnd : l.Nodup)
    (hA : A ∈ l) (hB : B ∈ l) (hne : B ≠ A)
    (hmin : ∀ p ∈ l, p ≠ A → A.id < p.id)
    (hsecond : ∀ p ∈ l, p ≠ A → p ≠ B → B.id < p.id) :
    ∃ t, s = A :: B :: t := by
  have hAs : A ∈ s := hp.mem_iff.mpr hA
  obtain ⟨h, t, rfl⟩ : ∃ h t, s = h :: t := by
    cases s with
    | nil => cases hAs
    | cons h t => exact ⟨h, t, rfl⟩
  have hhl : h ∈ l := hp.mem_iff.mp (List.mem_cons_self h t)
  have hhA : h = A := by
    by_contra hne'
    have h1 : A.id < h.id := hmin h hhl hne'
    have hAt : A ∈ t := by
      rcases List.mem_cons.mp hAs with h2 | h2
      · exact absurd h2.symm hne'
      · exact h2
    exact absurd (List.rel_of_sorted_cons hs A hAt) (Nat.not_le.mpr h1)
  rw [hhA] at hp ⊢
  have hpt : t.Perm (l.erase A) := (List.cons_perm_iff_perm_erase.mp hp).2
  have hst : List.Sorted ppLE t := (List.sorted_cons.mp hs).2
  have hBt : B ∈ t := hpt.mem_iff.mpr ((List.mem_erase_of_ne hne).mpr hB)
  obtain ⟨h2, t2, rfl⟩ : ∃ h2 t2, t = h2 :: t2 := by
    cases t with
    | nil => cases hBt
    | cons h2 t2 => exact ⟨h2, t2, rfl⟩
  have hh2e : h2 ∈ l.erase A := hpt.mem_iff.mp (List.mem_cons_self h2 t2)
  obtain ⟨hh2A, hh2l⟩ := (List.Nodup.mem_erase_iff hnd).mp hh2e
  have hh2B : h2 = B := by
    by_contra hne2
    have hlt : B.id < h2.id := hsecond h2 hh2l hh2A hne2
    have hBt2 : B ∈ t2 := by
      rcases List.mem_cons.mp hBt with h3 | h3
      · exact absurd h3.symm hne2
      · exact h3
    exact absurd (List.rel_of_sorted_cons hst B hBt2) (Nat.not_le.mpr hlt)
  exact ⟨t2, by rw [hh2B]⟩

/-- Under the primary-key invariant, the bound-pair rows of any
ServiceCityPair are duplicate-free. -/
lemma ppFor_nodup {db : DB} (hnd : PPIdsNodup db) (scpId : Nat) :
    (ppFor db scpId).Nodup := by
  have hsub : (ppFor db scpId).Sublist db.professional_pairs :=
    List.filter_sublist _
  have : ((ppFor db scpId).map (fun p => p.id)).Nodup :=
    List.Nodup.sublist (List.Sublist.map _ hsub) hnd
  exact List.Nodup.of_map _ this

/-- If `A` is the bound row with the strictly lowest id and `B` the
strictly second-lowest, the ascending-id sort begins `A :: B`. -/
lemma boundPairs_eq_cons_cons {db : DB} {scpId : Nat} {A B : ProfessionalPair}
    (hnd : PPIdsNodup db)
    (hA : A ∈ ppFor db scpId) (hB : B ∈ ppFor db scpId) (hne : B ≠ A)
    (hmin : ∀ p ∈ ppFor db scpId, p ≠ A → A.id < p.id)
    (hsecond : ∀ p ∈ ppFor db scpId, p ≠ A → p ≠ B → B.id < p.id) :
    ∃ t, boundPairs db scpId = A :: B :: t :=
  sorted_perm_head_two (boundPairs_sorted db scpId) (boundPairs_perm db scpId)
    (ppFor_nodup hnd scpId) hA hB hne hmin hsecond

/-! ### Helper lemmas about the engine and the handler -/

/-- When the pairing resolves and at least two bound rows exist, the engine
returns the even/odd choice between the first two sorted rows, for any
setting of the lock flags. -/
lemma choose_ok_of {db : DB} {sid cid : Nat} {scp : ServiceCityPair}
    {A B : ProfessionalPair} {t : List ProfessionalPair}
    (h1 : findSCP db sid cid = some scp)
    (h2 : boundPairs db scp.id = A :: B :: t)
    (ual la : Bool) :
    choose_pair_for_service_city db sid cid ual la =
      .ok (if countAB db A.id B.id % 2 == 0 then A.id else B.id) := by
  simp only [choose_pair_for_service_city, h1, h2]
  by_cases hpar : countAB db A.id B.id % 2 == 0 <;> simp [hpar]

/-- Everything a successful `create_lead` run certifies: the token resolved
to a customer, service/city ids were supplied and valid, the resolved state
exists, the engine chose the pair, and the only write is the appended row. -/
lemma create_lead_ok_spec {db : DB} {sub : String} {data : LeadReq}
    {db' : DB} {lead : Lead}
    (h : create_lead db sub data = .ok (db', lead)) :
    ∃ me pid state_id,
      db.customers.find? (fun c => c.email == sub) = some me ∧
      data.service_id = some (data.service_id.getD 0) ∧
      data.city_id = some (data.city_id.getD 0) ∧
      db.services.any (fun s => s.id == data.service_id.getD 0) = true ∧
      (db.cities.find? (fun c => c.id == data.city_id.getD 0)).isSome = true ∧
      resolveStateId db (data.city_id.getD 0) data.state_id = .ok state_id ∧
      db.states.any (fun s => s.id == state_id) = true ∧
      choose_pair_for_service_city db (data.service_id.getD 0)
        (data.city_id.getD 0) = .ok pid ∧
      lead = mkLead db me data state_id pid ∧
      db' = { db with leads := db.leads ++ [lead] } := by
  unfold create_lead at h
  split at h
  · exact absurd h (by simp)
  case _ me hme =>
  split at h
  · exact absurd h (by simp)
  case _ hfalsy =>
  split at h
  · exact absurd h (by simp)
  case _ hsvc =>
  split at h
  · exact absurd h (by simp)
  case _ city hcity =>
  split at h
  · exact absurd h (by simp)
  case _ state_id hstate =>
  split at h
  · exact absurd h (by simp)
  case _ hstex =>
  split at h
  · exact absurd h (by simp)
  case _ pid hchoose =>
  obtain ⟨hdb', hlead⟩ : ({ db with leads :=
      db.leads ++ [mkLead db me data state_id pid] } : DB) = db' ∧
      mkLead db me data state_id pid = lead := by
    have := h
    simp only [Except.ok.injEq, Prod.mk.injEq] at this
    exact this
  have hsv : data.service_id = some (data.service_id.getD 0) := by
    have hfk : (optFalsy data.service_id || optFalsy data.city_id) = false := by
      revert hfalsy; cases optFalsy data.service_id <;> cases optFalsy data.city_id <;> simp
    have : optFalsy data.service_id = false := by
      revert hfk; cases optFalsy data.service_id <;> simp
    revert this
    cases data.service_id with
    | none => simp [optFalsy]
    | some v => simp
  have hcv : data.city_id = some (data.city_id.getD 0) := by
    have hfk : (optFalsy data.service_id || optFalsy data.city_id) = false := by
      revert hfalsy; cases optFalsy data.service_id <;> cases optFalsy data.city_id <;> simp
    have : optFalsy data.city_id = false := by
      revert hfk; cases optFalsy data.city_id <;> simp
    revert this
    cases data.city_id with
    | none => simp [optFalsy]
    | some v => simp
  refine ⟨me, pid, state_id, hme, hsv, hcv, ?_, ?_, hstate, ?_, hchoose,
    hlead.symm, ?_⟩
  · revert hsvc; cases db.services.any (fun s => s.id == data.service_id.getD 0) <;> simp
  · rw [hcity]; rfl
  · revert hstex; cases db.states.any (fun s => s.id == state_id) <;> simp
  · rw [← hdb', ← hlead]

/-- Appending a Lead row leaves ServiceCityPair resolution unchanged. -/
lemma findSCP_append_lead (db : DB) (l : Lead) (sid cid : Nat) :
    findSCP { db with leads := db.leads ++ [l] } sid cid = findSCP db sid cid :=
  rfl

/-- Appending a Lead row leaves the bound-pair rows unchanged. -/
lemma boundPairs_append_lead (db : DB) (l : Lead) (scpId : Nat) :
    boundPairs { db with leads := db.leads ++ [l] } scpId = boundPairs db scpId :=
  rfl

/-- Committing one Lead that references either of the two pairs increments
the single count across both pairs by exactly one. -/
lemma countAB_append_one {db : DB} {l : Lead} {a b : Nat}
    (h : l.pair_id = some a ∨ l.pair_id = some b) :
    countAB { db with leads := db.leads ++ [l] } a b = countAB db a b + 1 := by
  unfold countAB
  simp only [List.filter_append, List.length_append]
  rcases h with h | h <;> simp [List.filter, h]

/-- Induction workhorse for sequential creations: given a resolvable
pairing with exactly two bound rows, every successful run increments the
count once per created Lead and assigns the `i`-th Lead by the parity of
(initial count + i). -/
lemma runCreates_spec (reqs : List (String × LeadReq)) :
    ∀ (db0 dbf : DB) (ids : List (Option Nat)) (sid cid : Nat)
      (scp : ServiceCityPair) (A B : ProfessionalPair),
      (∀ r ∈ reqs, r.2.service_id = some sid ∧ r.2.city_id = some cid) →
      findSCP db0 sid cid = some scp →
      boundPairs db0 scp.id = [A, B] →
      runCreates db0 reqs = some (dbf, ids) →
      countAB dbf A.id B.id = countAB db0 A.id B.id + ids.length ∧
      ∀ i (hi : i < ids.length),
        ids.get ⟨i, hi⟩ =
          some (if (countAB db0 A.id B.id + i) % 2 = 0 then A.id else B.id) := by
  induction reqs with
  | nil =>
    intro db0 dbf ids sid cid scp A B _ _ _ hrun
    simp only [runCreates, Option.some.injEq, Prod.mk.injEq] at hrun
    obtain ⟨rfl, rfl⟩ := hrun
    refine ⟨rfl, ?_⟩
    intro i hi
    cases hi
  | cons r rest ih =>
    intro db0 dbf ids sid cid scp A B hreq hscp hbp hrun
    simp only [runCreates] at hrun
    cases hc : create_lead db0 r.1 r.2 with
    | error e => rw [hc] at hrun; exact absurd hrun (by simp)
    | ok p =>
      obtain ⟨db', lead⟩ := p
      rw [hc] at hrun
      dsimp only at hrun
      cases hr2 : runCreates db' rest with
      | none => rw [hr2] at hrun; exact absurd hrun (by simp)
      | some q =>
        obtain ⟨dbf0, ids'⟩ := q
        rw [hr2] at hrun
        simp only [Option.some.injEq, Prod.mk.injEq] at hrun
        obtain ⟨rfl, rfl⟩ := hrun
        obtain ⟨me, pid, st, _hme, hsv, hcv, _hsex, _hcex, _hst, _hstex, hch,
          hleadeq, hdb'⟩ := create_lead_ok_spec hc
        obtain ⟨hrs, hrc⟩ := hreq r (List.mem_cons_self r rest)
        have hsid : r.2.service_id.getD 0 = sid := by rw [hrs]; rfl
        have hcid : r.2.city_id.getD 0 = cid := by rw [hrc]; rfl
        rw [hsid, hcid] at hch
        have hpid : pid = (if countAB db0 A.id B.id % 2 == 0 then A.id else B.id) := by
          have h2 := hch.symm.trans (choose_ok_of hscp (show boundPairs db0 scp.id = A :: B :: [] from hbp) true true)
          simpa using h2
        have hlp : lead.pair_id = some pid := by rw [hleadeq]; rfl
        have hmem : lead.pair_id = some A.id ∨ lead.pair_id = some B.id := by
          rw [hlp, hpid]
          by_cases hp : countAB db0 A.id B.id % 2 == 0 <;> simp [hp]
        subst hdb'
        have hcnt1 : countAB { db0 with leads := db0.leads ++ [lead] } A.id B.id =
            countAB db0 A.id B.id + 1 := countAB_append_one hmem
        have hscp' : findSCP { db0 with leads := db0.leads ++ [lead] } sid cid = some scp := by
          rw [findSCP_append_lead]; exact hscp
        have hbp' : boundPairs { db0 with leads := db0.leads ++ [lead] } scp.id = [A, B] := by
          rw [boundPairs_append_lead]; exact hbp
        obtain ⟨hcnt', hids'⟩ := ih _ _ ids' sid cid scp A B
          (fun x hx => hreq x (List.mem_cons_of_mem r hx)) hscp' hbp' hr2
        constructor
        · rw [hcnt', hcnt1, List.length_cons]
          omega
        · intro i hi
          cases i with
          | zero =>
            show lead.pair_id = some (if (countAB db0 A.id B.id + 0) % 2 = 0 then A.id else B.id)
            rw [hlp, hpid, Nat.add_zero]
            by_cases hp : countAB db0 A.id B.id % 2 = 0 <;> simp [beq_iff_eq, hp]
          | succ j =>
            have hj : j < ids'.length := by
              have := hi
              simp only [List.length_cons] at this
              omega
            have h2 := hids' j hj
            show ids'.get ⟨j, hj⟩ = some (if (countAB db0 A.id B.id + (j + 1)) % 2 = 0 then A.id else B.id)
            rw [h2, hcnt1]
            have harith : countAB db0 A.id B.id + 1 + j = countAB db0 A.id B.id + (j + 1) := by
              omega
            rw [harith]

/-! ### Claim theorems -/

/-- Claim C1: whenever `choose_pair_for_service_city` resolves a
ServiceCityPair with at least two bound ProfessionalPair rows, with `A`
the bound row of strictly lowest id and `B` the strictly second-lowest
(rows beyond the first two being ignored), and `n` the single count of
Lead rows referencing either id, the call returns `A.id` when `n` is even
and `B.id` when `n` is odd. -/
theorem choose_pair_even_odd_rule
    (db : DB) (sid cid : Nat) (scp : ServiceCityPair) (A B : ProfessionalPair)
    (hnd : PPIdsNodup db)
    (hscp : findSCP db sid cid = some scp)
    (hA : A ∈ ppFor db scp.id) (hB : B ∈ ppFor db scp.id) (hne : B ≠ A)
    (hmin : ∀ p ∈ ppFor db scp.id, p ≠ A → A.id < p.id)
    (hsecond : ∀ p ∈ ppFor db scp.id, p ≠ A → p ≠ B → B.id < p.id) :
    choose_pair_for_service_city db sid cid =
      .ok (if countAB db A.id B.id % 2 = 0 then A.id else B.id) := by
  obtain ⟨t, ht⟩ := boundPairs_eq_cons_cons hnd hA hB hne hmin hsecond
  have h := choose_ok_of hscp ht true true
  rw [h]
  by_cases hp : countAB db A.id B.id % 2 = 0 <;> simp [beq_iff_eq, hp]

/-- Claim C3: for a (service_id, city_id) with no ServiceCityPair row, the
engine fails with the "no pairing configured" HTTP-400 error, and the
lead-creation handler can never succeed for such a request (no Lead row,
no partial state — an error run returns no new database at all). -/
theorem no_pairing_configured (db : DB) (sid cid : Nat)
    (hnone : findSCP db sid cid = none) :
    choose_pair_for_service_city db sid cid =
      .error ⟨400, "No service_city_pair for given service/city"⟩ ∧
    ∀ (sub : String) (data : LeadReq), data.service_id = some sid →
      data.city_id = some cid → ∀ r, create_lead db sub data ≠ .ok r := by
  constructor
  · simp only [choose_pair_for_service_city, hnone]
  · intro sub data hs hc r hok
    obtain ⟨db', lead⟩ := r
    obtain ⟨me, pid, st, _, hsv, _, _, _, _, _, hch, _, _⟩ := create_lead_ok_spec hok
    have hgd : data.service_id.getD 0 = sid := by rw [hs]; rfl
    have hgc : data.city_id.getD 0 = cid := by rw [hc]; rfl
    rw [hgd, hgc] at hch
    rw [show choose_pair_for_service_city db sid cid =
        .error ⟨400, "No service_city_pair for given service/city"⟩ from by
      simp only [choose_pair_for_service_city, hnone]] at hch
    exact absurd hch (by simp)

/-- Claim C4: for a resolvable ServiceCityPair with fewer than two bound
ProfessionalPair rows, the engine fails with the "pairs not configured"
HTTP-400 error, and the lead-creation handler can never succeed for such
a request (no Lead row, no partial state). -/
theorem pairs_not_configured (db : DB) (sid cid : Nat) (scp : ServiceCityPair)
    (hscp : findSCP db sid cid = some scp)
    (hlt : (ppFor db scp.id).length < 2) :
    choose_pair_for_service_city db sid cid =
      .error ⟨400, "Admin must configure two pairs for this service/city"⟩ ∧
    ∀ (sub : String) (data : LeadReq), data.service_id = some sid →
      data.city_id = some cid → ∀ r, create_lead db sub data ≠ .ok r := by
  have herr : choose_pair_for_service_city db sid cid =
      .error ⟨400, "Admin must configure two pairs for this service/city"⟩ := by
    have hlen : (boundPairs db scp.id).length < 2 := by
      rw [(boundPairs_perm db scp.id).length_eq]; exact hlt
    simp only [choose_pair_for_service_city, hscp]
    cases hbp : boundPairs db scp.id with
    | nil => rfl
    | cons x t =>
      cases t with
      | nil => rfl
      | cons y t2 =>
        rw [hbp] at hlen
        exact absurd hlen (by simp)
  constructor
  · exact herr
  · intro sub data hs hc r hok
    obtain ⟨db', lead⟩ := r
    obtain ⟨me, pid, st, _, hsv, _, _, _, _, _, hch, _, _⟩ := create_lead_ok_spec hok
    have hgd : data.service_id.getD 0 = sid := by rw [hs]; rfl
    have hgc : data.city_id.getD 0 = cid := by rw [hc]; rfl
    rw [hgd, hgc, herr] at hch
    exact absurd hch (by simp)

/-- Claim C6: the engine is a pure function of the committed Pair registry
(ServiceCityPair and ProfessionalPair tables) and the Lead ledger: any two
databases agreeing on those three tables yield the same result, whatever
the other tables or the clock hold.  In particular an aborted transaction
(which leaves all tables unchanged) is followed by an identical choice. -/
theorem engine_reads_only_registry_and_ledger
    (db1 db2 : DB) (sid cid : Nat)
    (h1 : db1.service_city_pairs = db2.service_city_pairs)
    (h2 : db1.professional_pairs = db2.professional_pairs)
    (h3 : db1.leads = db2.leads) :
    choose_pair_for_service_city db1 sid cid =
      choose_pair_for_service_city db2 sid cid := by
  simp only [choose_pair_for_service_city, findSCP, boundPairs, countAB, h1, h2, h3]

/-- Claim C8: when the advisory-lock primitive is unavailable the engine
does not fail: with the lock skipped it returns exactly what it returns
with the lock held, namely the even/odd-count choice between the first
two bound rows. -/
theorem lock_failure_degrades_gracefully
    (db : DB) (sid cid : Nat) (scp : ServiceCityPair)
    (A B : ProfessionalPair) (t : List ProfessionalPair)
    (hscp : findSCP db sid cid = some scp)
    (hbp : boundPairs db scp.id = A :: B :: t) :
    choose_pair_for_service_city db sid cid true false =
      choose_pair_for_service_city db sid cid true true ∧
    choose_pair_for_service_city db sid cid true false =
      .ok (if countAB db A.id B.id % 2 = 0 then A.id else B.id) := by
  constructor
  · rfl
  · have h := choose_ok_of hscp hbp true false
    rw [h]
    by_cases hp : countAB db A.id B.id % 2 = 0 <;> simp [beq_iff_eq, hp]

/-- Claim C2: for a ServiceCityPair with exactly two bound rows of ids
`A.id < B.id` and a zero initial count, every sequence of sequential
successful lead creations for that service/city assigns `pair_id` in the
exact order `A.id, B.id, A.id, …`, and each committed Lead increments the
count seen by the next call (so the final count equals the number of
creations). -/
theorem strict_alternation
    (db0 dbf : DB) (reqs : List (String × LeadReq)) (ids : List (Option Nat))
    (sid cid : Nat) (scp : ServiceCityPair) (A B : ProfessionalPair)
    (hreq : ∀ r ∈ reqs, r.2.service_id = some sid ∧ r.2.city_id = some cid)
    (hscp : findSCP db0 sid cid = some scp)
    (hbp : boundPairs db0 scp.id = [A, B])
    (hAB : A.id < B.id)
    (hc0 : countAB db0 A.id B.id = 0)
    (hrun : runCreates db0 reqs = some (dbf, ids)) :
    (∀ i (hi : i < ids.length),
        ids.get ⟨i, hi⟩ = some (if i % 2 = 0 then A.id else B.id)) ∧
    countAB dbf A.id B.id = ids.length := by
  obtain ⟨h1, h2⟩ := runCreates_spec reqs db0 dbf ids sid cid scp A B hreq hscp hbp hrun
  constructor
  · intro i hi
    have h := h2 i hi
    rw [hc0, Nat.zero_add] at h
    exact h
  · rw [h1, hc0, Nat.zero_add]

/-- Claim C5: every Lead created through the lead-creation path carries a
non-null `pair_id` equal to the engine's choice for the Lead's own
(service_id, city_id); no lead is created with a null or guessed pair. -/
theorem lead_pair_id_from_engine
    (db : DB) (sub : String) (data : LeadReq) (db' : DB) (lead : Lead)
    (hok : create_lead db sub data = .ok (db', lead)) :
    ∃ pid, lead.pair_id = some pid ∧
      choose_pair_for_service_city db lead.service_id lead.city_id = .ok pid := by
  obtain ⟨me, pid, st, _, _, _, _, _, _, _, hch, hleadeq, _⟩ := create_lead_ok_spec hok
  refine ⟨pid, ?_, ?_⟩
  · rw [hleadeq]; rfl
  · have hs : lead.service_id = data.service_id.getD 0 := by rw [hleadeq]; rfl
    have hc : lead.city_id = data.city_id.getD 0 := by rw [hleadeq]; rfl
    rw [hs, hc]
    exact hch

/-- Claim C7 (amended): before invoking the engine the handler validates
that the service exists, the city exists, and the supplied-or-derived
state exists — any successful creation certifies all three — but it does
not check that the city belongs to the claimed state when a `state_id` is
supplied (see the counterexample theorem). -/
theorem handler_validates_existence
    (db : DB) (sub : String) (data : LeadReq) (db' : DB) (lead : Lead)
    (hok : create_lead db sub data = .ok (db', lead)) :
    db.services.any (fun s => s.id == lead.service_id) = true ∧
    db.cities.any (fun c => c.id == lead.city_id) = true ∧
    db.states.any (fun s => s.id == lead.state_id) = true := by
  obtain ⟨me, pid, st, _, _, _, hsex, hcex, _, hstex, _, hleadeq, _⟩ :=
    create_lead_ok_spec hok
  have hs : lead.service_id = data.service_id.getD 0 := by rw [hleadeq]; rfl
  have hc : lead.city_id = data.city_id.getD 0 := by rw [hleadeq]; rfl
  have hst : lead.state_id = st := by rw [hleadeq]; rfl
  refine ⟨by rw [hs]; exact hsex, ?_, by rw [hst]; exact hstex⟩
  rw [hc]
  obtain ⟨c0, hfind⟩ := Option.isSome_iff_exists.mp hcex
  refine List.any_eq_true.mpr ⟨c0, List.mem_of_find?_eq_some hfind, ?_⟩
  have hpc := List.find?_some hfind
  exact hpc

/-- Claim C9: the `pair_id` a client supplies in the request body is
discarded before assignment: two requests differing only in the supplied
`pair_id` (including its absence) produce identical results, down to the
created Lead and committed database. -/
theorem client_pair_id_ignored
    (db : DB) (sub : String) (data : LeadReq) (x : Option Nat) :
    create_lead db sub { data with pair_id := x } = create_lead db sub data := by
  cases data
  rfl

/-- Claim C10: the created Lead's `customer_id` is always the id of the
Customer row matching the authenticated token's email, overriding any
body-supplied `customer_id`; when no Customer matches, the handler fails
with HTTP 403 and creates no Lead. -/
theorem customer_forced_from_token (db : DB) (sub : String) (data : LeadReq) :
    (db.customers.find? (fun c => c.email == sub) = none →
      create_lead db sub data = .error ⟨403, "Customer not found for this token"⟩) ∧
    (∀ (me : Customer) (db' : DB) (lead : Lead),
      db.customers.find? (fun c => c.email == sub) = some me →
      create_lead db sub data = .ok (db', lead) →
      lead.customer_id = me.id) := by
  constructor
  · intro h
    simp only [create_lead, h]
  · intro me db' lead hme hok
    obtain ⟨me2, pid, st, hme2, _, _, _, _, _, _, _, hleadeq, _⟩ :=
      create_lead_ok_spec hok
    have h9 : me2 = me := by
      rw [hme] at hme2
      exact ((Option.some.injEq _ _).mp hme2).symm
    rw [hleadeq, h9]
    rfl

/-! ### Counterexample for C7 as stated -/

/-- Claim C7 counterexample: the handler does NOT validate that the city
belongs to the claimed state.  Request `xreq` claims state 2 while city 1
belongs only to state 1 (`cityInState wdb 2 1 = false`), yet the request
is not rejected: the engine is called and a Lead with the mismatched
`state_id = 2` is committed. -/
theorem state_membership_not_checked :
    cityInState wdb 2 1 = false ∧
    xreq.state_id = some 2 ∧ xreq.city_id = some 1 ∧
    (create_lead wdb "cust" xreq).toOption.map (fun r => r.2.state_id) = some 2 := by
  exact ⟨rfl, rfl, rfl, rfl⟩

/-! ### Witnesses -/

/-- Witness for C1: in `wdb` the two bound rows (ids 100 < 101, stored out
of order) and a zero lead count make the engine pick slot A, id 100. -/
theorem choose_pair_even_odd_rule_witness :
    choose_pair_for_service_city wdb 1 1 = .ok 100 := by
  have h := choose_pair_even_odd_rule wdb 1 1 ⟨7, 1, 1⟩
    ⟨100, 7, some 1, some 2⟩ ⟨101, 7, some 3, some 4⟩
    (by decide) (by decide) (by decide) (by decide) (by decide)
    (by decide) (by decide)
  rw [h, show countAB wdb 100 101 = 0 from rfl]
  rfl

/-- Witness for C2: the three-creation run assigns 100, 101, 100 — the
third creation returns slot A again — and the final count is 3. -/
theorem strict_alternation_witness :
    wids.get ⟨2, by decide⟩ = some 100 ∧ countAB wdbf 100 101 = 3 := by
  have h := strict_alternation wdb wdbf wreqs wids 1 1 ⟨7, 1, 1⟩
    ⟨100, 7, some 1, some 2⟩ ⟨101, 7, some 3, some 4⟩
    (by decide) (by decide) (by decide) (by decide) (by decide) (by rfl)
  constructor
  · have h2 := h.1 2 (by decide)
    rw [h2]
    rfl
  · rw [h.2]
    rfl

/-- Witness for C3: (service 2, city 2) has no ServiceCityPair in `wdb`:
the engine raises the configuration error and the handler cannot commit. -/
theorem no_pairing_configured_witness :
    choose_pair_for_service_city wdb 2 2 =
      .error ⟨400, "No service_city_pair for given service/city"⟩ ∧
    create_lead wdb "cust" { wreq with service_id := some 2, city_id := some 2 } ≠
      .ok (wdb', wlead) := by
  have h := no_pairing_configured wdb 2 2 (by rfl)
  exact ⟨h.1, h.2 "cust" { wreq with service_id := some 2, city_id := some 2 }
    (by rfl) (by rfl) (wdb', wlead)⟩

/-- Witness for C4: in `vdb` ServiceCityPair 7 has a single bound row:
the engine raises the configuration error and the handler cannot commit. -/
theorem pairs_not_configured_witness :
    choose_pair_for_service_city vdb 1 1 =
      .error ⟨400, "Admin must configure two pairs for this service/city"⟩ ∧
    create_lead vdb "cust" wreq ≠ .ok (wdb', wlead) := by
  have h := pairs_not_configured vdb 1 1 ⟨7, 1, 1⟩ (by rfl) (by decide)
  exact ⟨h.1, h.2 "cust" wreq (by rfl) (by rfl) (wdb', wlead)⟩

/-- Witness for C5: the committed Lead carries `pair_id = some 100`, the
value the engine returns for its (service, city). -/
theorem lead_pair_id_from_engine_witness :
    wlead.pair_id = some 100 ∧
    choose_pair_for_service_city wdb wlead.service_id wlead.city_id = .ok 100 := by
  obtain ⟨pid, h1, h2⟩ := lead_pair_id_from_engine wdb "cust" wreq wdb' wlead (by rfl)
  have h1' := h1
  simp only [wlead, Option.some.injEq] at h1'
  rw [show (100 : Nat) = pid from h1']
  exact ⟨h1, h2⟩

/-- Witness for C6: `udb` strips the catalog, the customers and the clock
from `wdb` but keeps registry and ledger; the engine's choice is equal. -/
theorem engine_reads_only_registry_and_ledger_witness :
    choose_pair_for_service_city wdb 1 1 = choose_pair_for_service_city udb 1 1 :=
  engine_reads_only_registry_and_ledger wdb udb 1 1 rfl rfl rfl

/-- Witness for C7 (amended): the successful creation of `wlead` certifies
that its service, city and state all exist in the catalog. -/
theorem handler_validates_existence_witness :
    wdb.services.any (fun s => s.id == wlead.service_id) = true ∧
    wdb.cities.any (fun c => c.id == wlead.city_id) = true ∧
    wdb.states.any (fun s => s.id == wlead.state_id) = true :=
  handler_validates_existence wdb "cust" wreq wdb' wlead (by rfl)

/-- Witness for C8: with the advisory lock unavailable the engine still
returns 100, exactly as with the lock held. -/
theorem lock_failure_degrades_gracefully_witness :
    choose_pair_for_service_city wdb 1 1 true false =
      choose_pair_for_service_city wdb 1 1 true true ∧
    choose_pair_for_service_city wdb 1 1 true false = .ok 100 := by
  have h := lock_failure_degrades_gracefully wdb 1 1 ⟨7, 1, 1⟩
    ⟨100, 7, some 1, some 2⟩ ⟨101, 7, some 3, some 4⟩ [] (by rfl) (by decide)
  refine ⟨h.1, ?_⟩
  rw [h.2, show countAB wdb 100 101 = 0 from rfl]
  rfl

/-- Witness for C10: the committed Lead's `customer_id` is 5, the id of
the token's customer, although the body supplied 99. -/
theorem customer_forced_from_token_witness :
    wlead.customer_id = 5 ∧ wreq.customer_id = some 99 := by
  have h := (customer_forced_from_token wdb "cust" wreq).2 ⟨5, "cust"⟩ wdb' wlead
    (by rfl) (by rfl)
  exact ⟨h, rfl⟩

end ProTown
